import Mathlib

/-!
Verification development for the Shapely multipolygon module
(`shapely/geometry/multipolygon.py`) and the WKT formatting contract pinned
by `shapely/tests/test_linestring.py`.

The Python module is shallowly embedded: coordinates are integer lists,
Python sequences are Lean lists, duck-typed attribute access becomes
`Option` fields, Python exceptions become an error type `PyErr`, and the
opaque GEOS engine is modelled as an explicit state (`GEOSState`) holding
the polygon payloads and collections that have been created.  Engine
handles are indices into those lists; a handle is "live" exactly while its
payload is in the state, and the assembler code under scrutiny never
removes (releases) payloads, mirroring the absence of any cleanup calls in
the source.
-/

/-- A Python exception, coarsely classified.  `construction` stands for the
`AssertionError` raised by the `assert L >= 1` / `assert N == 2 or N == 3`
statements (the spec's `ConstructionError`), `shape` for a failure of the
single-polygon ring builder (the spec's `ShapeError`), `probe` for a failure
of the adapter's dimensionality probe (the spec's `ProbeError`), and
`typeErr` / `indexErr` / `attrErr` for Python's `TypeError` / `IndexError` /
`AttributeError`. -/
inductive PyErr where
  | construction
  | shape
  | probe
  | typeErr
  | indexErr
  | attrErr
  deriving DecidableEq, Repr

/-- A coordinate: a tuple of numbers, of any length (dimensionality checks
are explicit in the code being modelled). -/
abbrev Coord := List Int

/-- A linear ring: a sequence of coordinates. -/
abbrev LinearRing := List Coord

/-- The state of the native GEOS engine, modelled explicitly.  A polygon
handle is an index into `polys` (its payload is the shell and holes it was
built from); a collection handle is an index into `colls` (its payload is
the list of polygon handles it owns).  Creating a handle appends; nothing
in the modelled code ever releases one. -/
structure GEOSState where
  polys : List (LinearRing × List LinearRing)
  colls : List (List Nat)
  deriving DecidableEq, Repr

/-- The empty engine state. -/
def initGEOS : GEOSState := { polys := [], colls := [] }

/-- Validity of one (shell, holes) pair for the ring builder: the shell is
non-empty, the shell's first coordinate has length 2 or 3, and every hole
ring is non-empty. -/
def partOkB (pr : LinearRing × List LinearRing) : Bool :=
  !pr.1.isEmpty
    && ((pr.1.headD []).length == 2 || (pr.1.headD []).length == 3)
    && pr.2.all (fun r => !r.isEmpty)

/-- Modelled from the spec: the RingBuilder `geos_polygon_from_py` (defined
in `shapely.geometry.polygon`, which is not under src/).  It consumes a
shell coordinate sequence plus a sequence of hole coordinate sequences and
returns an opaque polygon handle and the dimensionality inferred from the
shell's first coordinate (which must be 2 or 3); the shell and every hole
must be non-empty; any violation is a `ShapeError`.  The payload is stored
verbatim (closure normalization is out of scope for this layer per the
spec). -/
def geos_polygon_from_py (shell : LinearRing) (holes : List LinearRing) (st : GEOSState) :
    GEOSState × Except PyErr (Nat × Nat) :=
  if partOkB (shell, holes) then
    ({ st with polys := st.polys ++ [(shell, holes)] },
      .ok (st.polys.length, (shell.headD []).length))
  else (st, .error .shape)

/-- Modelled from the spec: the engine primitive
`lgeos.GEOSGeom_createCollection(kind, subs, L)` (a foreign call, not under
src/).  It assembles the given part handles into one collection handle that
owns them; `kind` is the fixed geometry-kind discriminator (6 for
multi-polygon at every call site in the source). -/
def GEOSGeom_createCollection (_kind : Nat) (subs : List Nat) (st : GEOSState) :
    GEOSState × Nat :=
  (( { st with colls := st.colls ++ [subs] } ), st.colls.length)

/-- One polygon-like input for the `polygons` context type, as duck-typed by
`geos_multipolygon_from_polygons`: an optional `exterior` attribute, an
optional `interiors` attribute, an optional plain-tuple representation
`(p[0], p[1])` (absent when the object is not subscriptable, in which case
indexing raises `TypeError`), and an optional declared `_ndim` attribute. -/
structure PolyLike where
  exterior : Option LinearRing
  interiors : Option (List LinearRing)
  tupleRep : Option (LinearRing × List LinearRing)
  ndimAttr : Option Nat
  deriving DecidableEq, Repr

/-- The input object of `geos_multipolygon_from_polygons`: an optional
`geoms` attribute and the sequence obtained by indexing the object
itself. -/
structure PolySeq where
  geoms : Option (List PolyLike)
  seq : List PolyLike
  deriving DecidableEq, Repr

/-- Source line `obs = getattr(ob, 'geoms', None) or ob`: a truthy
(present and non-empty) `geoms` attribute supplies the parts, otherwise
the object itself does. -/
def multipolygonSource (ob : PolySeq) : List PolyLike :=
  match ob.geoms with
  | some g => if g.isEmpty then ob.seq else g
  | none => ob.seq

/-- Source lines `shell = getattr(obs[l], 'exterior', None)` /
`if shell is None: shell = obs[l][0]`: the `exterior` attribute if present,
else element 0, else a `TypeError` from indexing. -/
def resolveShell (p : PolyLike) : Except PyErr LinearRing :=
  match p.exterior with
  | some s => .ok s
  | none =>
    match p.tupleRep with
    | some t => .ok t.1
    | none => .error .typeErr

/-- Source lines `holes = getattr(obs[l], 'interiors', None)` /
`if holes is None: holes = obs[l][1]`: the `interiors` attribute if present,
else element 1, else a `TypeError` from indexing. -/
def resolveHoles (p : PolyLike) : Except PyErr (List LinearRing) :=
  match p.interiors with
  | some h => .ok h
  | none =>
    match p.tupleRep with
    | some t => .ok t.2
    | none => .error .typeErr

/-- Source lines `try: N = len(exemplar[0][0]) except TypeError:
N = exemplar._ndim`: when the exemplar is subscriptable the length of the
first coordinate of its element 0 (an empty element 0 raises an uncaught
`IndexError`); when it is not subscriptable (a `TypeError`, caught) the
declared `_ndim` attribute (an `AttributeError` if absent). -/
def inferN (p : PolyLike) : Except PyErr Nat :=
  match p.tupleRep with
  | some t =>
    match t.1 with
    | [] => .error .indexErr
    | c :: _ => .ok c.length
  | none =>
    match p.ndimAttr with
    | some n => .ok n
    | none => .error .attrErr

/-- The per-part loop of `geos_multipolygon_from_polygons`: resolve shell
and holes for each part and call the ring builder, collecting the handles.
On a failure the engine state reached so far is kept (Python exceptions do
not roll back the engine heap) and the error propagates. -/
def buildParts : List PolyLike → GEOSState → GEOSState × Except PyErr (List Nat)
  | [], st => (st, .ok [])
  | p :: rest, st =>
    match resolveShell p with
    | .error e => (st, .error e)
    | .ok shell =>
      match resolveHoles p with
      | .error e => (st, .error e)
      | .ok holes =>
        match geos_polygon_from_py shell holes st with
        | (st1, .error e) => (st1, .error e)
        | (st1, .ok hn) =>
          match buildParts rest st1 with
          | (st2, .error e) => (st2, .error e)
          | (st2, .ok hs) => (st2, .ok (hn.1 :: hs))

/-- The body of `geos_multipolygon_from_polygons` after the `geoms`
resolution: assert `L >= 1`, infer `N` from the first part, assert
`N == 2 or N == 3`, build every part, then create the collection. -/
def assemblePolygons (obs : List PolyLike) (st : GEOSState) :
    GEOSState × Except PyErr (Nat × Nat) :=
  match obs with
  | [] => (st, .error .construction)
  | exemplar :: rest =>
    match inferN exemplar with
    | .error e => (st, .error e)
    | .ok N =>
      if N = 2 ∨ N = 3 then
        match buildParts (exemplar :: rest) st with
        | (st1, .error e) => (st1, .error e)
        | (st1, .ok hs) =>
          let r := GEOSGeom_createCollection 6 hs st1
          (r.1, .ok (r.2, N))
      else (st, .error .construction)

/-- The function `geos_multipolygon_from_polygons(ob)` (source lines 153-178). -/
def geos_multipolygon_from_polygons (ob : PolySeq) (st : GEOSState) :
    GEOSState × Except PyErr (Nat × Nat) :=
  assemblePolygons (multipolygonSource ob) st

/-- The per-part loop of `geos_multipolygon_from_py`: for each part,
`ob[l][0]` is the shell and `ob[l][1:]` the holes (an empty part raises
`IndexError`); build each via the ring builder. -/
def buildPartsPy : List (List LinearRing) → GEOSState → GEOSState × Except PyErr (List Nat)
  | [], st => (st, .ok [])
  | part :: rest, st =>
    match part with
    | [] => (st, .error .indexErr)
    | shell :: holes =>
      match geos_polygon_from_py shell holes st with
      | (st1, .error e) => (st1, .error e)
      | (st1, .ok hn) =>
        match buildPartsPy rest st1 with
        | (st2, .error e) => (st2, .error e)
        | (st2, .ok hs) => (st2, .ok (hn.1 :: hs))

/-- The function `geos_multipolygon_from_py(ob)` (source lines 138-151): assert
`L >= 1`, compute `N = len(ob[0][0][0])` (each missing level is an
`IndexError`), assert `N == 2 or N == 3`, build every part, create the
collection. -/
def geos_multipolygon_from_py (ob : List (List LinearRing)) (st : GEOSState) :
    GEOSState × Except PyErr (Nat × Nat) :=
  match ob with
  | [] => (st, .error .construction)
  | part0 :: rest =>
    match part0 with
    | [] => (st, .error .indexErr)
    | ring0 :: _ =>
      match ring0 with
      | [] => (st, .error .indexErr)
      | c0 :: _ =>
        if c0.length = 2 ∨ c0.length = 3 then
          match buildPartsPy (part0 :: rest) st with
          | (st1, .error e) => (st1, .error e)
          | (st1, .ok hs) =>
            let r := GEOSGeom_createCollection 6 hs st1
            (r.1, .ok (r.2, c0.length))
        else (st, .error .construction)

/-- Modelled from the spec: the derived read-side view `geoms` / `part(i)`
of `BaseMultipartGeometry` (defined in `shapely.geometry.base`, not under
src/): it recovers, from a collection handle, each part's shell and hole
coordinate sequences in part order. -/
def collectionParts (st : GEOSState) (c : Nat) : List (LinearRing × List LinearRing) :=
  (st.colls[c]?.getD []).filterMap (fun h => st.polys[h]?)

/-- The mapping returned by `MultiPolygon.__geo_interface__`. -/
structure GeoInterface where
  type : String
  coordinates : List (List LinearRing)
  deriving DecidableEq, Repr

/-- The property `MultiPolygon.__geo_interface__` (source lines 69-81): type
`MultiPolygon`, and for each part the exterior ring first followed by the
hole rings. -/
def multipolygon_geo_interface (st : GEOSState) (c : Nat) : GeoInterface :=
  { type := "MultiPolygon"
    coordinates := (collectionParts st c).map (fun g => g.1 :: g.2) }

/-- The `polygons` argument of `MultiPolygon.__init__`, in one of the two
representations the two context types expect. -/
inductive MPContext where
  | polyCtx : PolySeq → MPContext
  | geoCtx : List (List LinearRing) → MPContext
  deriving DecidableEq, Repr

/-- Python truthiness of the `polygons` argument: a sequence is falsy
exactly when it is empty. -/
def contextFalsy : MPContext → Bool
  | .polyCtx ps => ps.seq.isEmpty
  | .geoCtx g => g.isEmpty

/-- The initializer `MultiPolygon.__init__` (source lines 32-64): falsy input gives the
empty collection (no engine handle, supporting unpickling); otherwise
context type `polygons` dispatches to `geos_multipolygon_from_polygons` and
`geojson` to `geos_multipolygon_from_py`; any other context type takes no
branch at all.  A context representation mismatched with its context type
is not exercised by the source tests and is modelled as a `TypeError`. -/
def multiPolygonInit (polygons : Option MPContext) (context_type : String)
    (st : GEOSState) : GEOSState × Except PyErr (Option (Nat × Nat)) :=
  match polygons with
  | none => (st, .ok none)
  | some c =>
    if contextFalsy c then (st, .ok none)
    else if context_type = "polygons" then
      match c with
      | .polyCtx ps =>
        match geos_multipolygon_from_polygons ps st with
        | (st1, .ok gn) => (st1, .ok (some gn))
        | (st1, .error e) => (st1, .error e)
      | .geoCtx _ => (st, .error .typeErr)
    else if context_type = "geojson" then
      match c with
      | .geoCtx g =>
        match geos_multipolygon_from_py g st with
        | (st1, .ok gn) => (st1, .ok (some gn))
        | (st1, .error e) => (st1, .error e)
      | .polyCtx _ => (st, .error .typeErr)
    else (st, .ok none)

/-- Which assembler an adapter will use once it resolves. -/
inductive FactoryKind where
  | fromPy
  | fromPolygons
  deriving DecidableEq, Repr

/-- The initializer `MultiPolygonAdapter.__init__` (source lines 113-118): `geojson`
selects `geos_multipolygon_from_py`, `polygons` selects
`geos_multipolygon_from_polygons`, and any other context type leaves the
factory unset. -/
def multiPolygonAdapterInit (context_type : String) : Option FactoryKind :=
  if context_type = "geojson" then some .fromPy
  else if context_type = "polygons" then some .fromPolygons
  else none

/-- What the adapter's dimensionality probe can see of `context[0][0]`:
the `shape` entry of its `__array_interface__` when that attribute exists,
and the length of `context[0][0][0]` when that nested access succeeds. -/
structure NdimCtx where
  arrayShape : Option (List Nat)
  nested0 : Option Nat
  deriving DecidableEq, Repr

/-- The property `MultiPolygonAdapter._ndim` (source lines 120-130): read
`context[0][0].__array_interface__['shape'][1]` and assert it is 2 or 3;
only an `AttributeError` (the array protocol being absent) is caught, in
which case the fallback returns `len(context[0][0][0])` unvalidated; every
other failure (a short shape tuple, a failed assertion, an unmeasurable
nested sequence) surfaces as the probe error. -/
def adapter_ndim (c : NdimCtx) : Except PyErr Nat :=
  match c.arrayShape with
  | some shape =>
    match shape[1]? with
    | some n => if n = 2 ∨ n = 3 then .ok n else .error .probe
    | none => .error .probe
  | none =>
    match c.nested0 with
    | some k => .ok k
    | none => .error .probe

/-- Modelled from the spec: the memo state of `CachingGeometryProxy`
(defined in `shapely.geometry.proxy`, not under src/): an optional cached
`(EngineHandle, dimensionality)` pair, plus a resolution counter made
observable for the caching claims. -/
structure AdapterState where
  cache : Option (Nat × Nat)
  resolutions : Nat
  deriving DecidableEq, Repr

/-- The state of a freshly constructed adapter: nothing resolved yet. -/
def adapterInitState : AdapterState := { cache := none, resolutions := 0 }

/-- Modelled from the spec: one read operation on the lazy caching adapter.
`resolve` is the `(EngineHandle, dim)` pair that a full resolution of the
current context would produce; a read returns the cached pair when one
exists and otherwise performs exactly one resolution and caches its
result. -/
def adapterRead (resolve : Nat × Nat) (a : AdapterState) :
    (Nat × Nat) × AdapterState :=
  match a.cache with
  | some v => (v, a)
  | none => (resolve, { cache := some resolve, resolutions := a.resolutions + 1 })

/-- Runs `n` successive read operations on the adapter. -/
def adapterReads (resolve : Nat × Nat) (n : Nat) (a : AdapterState) : AdapterState :=
  match n with
  | 0 => a
  | k + 1 => adapterReads resolve k (adapterRead resolve a).2

/-- A plain `(shell, holes)` tuple as a polygon-like input: no attributes,
only the tuple representation. -/
def plainPoly (pr : LinearRing × List LinearRing) : PolyLike :=
  { exterior := none, interiors := none, tupleRep := some pr, ndimAttr := none }

/-- A plain sequence of `(shell, holes)` tuples, with no `geoms`
attribute. -/
def plainSeq (parts : List (LinearRing × List LinearRing)) : PolySeq :=
  { geoms := none, seq := parts.map plainPoly }

/-- A geo-interface part: the shell ring followed by the hole rings. -/
def geoPart (pr : LinearRing × List LinearRing) : List LinearRing := pr.1 :: pr.2

/-- Modelled from the spec: a numeric coordinate value at the WKT
formatting boundary (the codec itself, `shapely.wkt`, is not under src/;
only its tests are).  The value is `intPart + fracPart / 10 ^ 16`, the
fixed-point precision the boundary contract prescribes. -/
structure WktNum where
  intPart : Int
  fracPart : Nat
  deriving DecidableEq, Repr

/-- The sixteen decimal digits printed after the decimal point for a
fractional part `f` (most significant first). -/
def frac16 (f : Nat) : List Char :=
  (List.range 16).map (fun i => Nat.digitChar (f / 10 ^ (15 - i) % 10))

/-- Modelled from the spec: rendering of one numeric coordinate with
exactly 16 digits after the decimal point. -/
def formatNum (n : WktNum) : String :=
  toString n.intPart ++ "." ++ String.mk (frac16 n.fracPart)

/-- Join strings with a single blank between them. -/
def joinSpace : List String → String
  | [] => ""
  | [x] => x
  | x :: y :: rest => x ++ " " ++ joinSpace (y :: rest)

/-- Join strings with a comma and a blank between them. -/
def joinComma : List String → String
  | [] => ""
  | [x] => x
  | x :: y :: rest => x ++ ", " ++ joinComma (y :: rest)

/-- Modelled from the spec: rendering of one point; each component is one
formatted number, blank separated, with no extra marker for a third
component. -/
def formatPoint (p : List WktNum) : String :=
  joinSpace (p.map formatNum)

/-- Modelled from the spec: the geometry tag the WKT writer chooses for a
coordinate sequence: `LINEARRING` when (and only when) the sequence has
4 or more points and its first and last points are identical, otherwise
`LINESTRING`. -/
def wktTag (coords : List (List WktNum)) : String :=
  if 4 ≤ coords.length ∧ coords.head? = coords.getLast? then "LINEARRING"
  else "LINESTRING"

/-- Modelled from the spec: `wkt.dumps` for a line-string or linear-ring
coordinate sequence, as pinned by `tests/test_linestring.py`. -/
def wktDumps (coords : List (List WktNum)) : String :=
  wktTag coords ++ " (" ++ joinComma (coords.map formatPoint) ++ ")"

/-- Shorthand for an integral WKT coordinate value. -/
def wknum (i : Int) : WktNum := { intPart := i, fracPart := 0 }

/-!
Helper lemmas about the embedded operations, shared by the claim theorems
below.
-/

theorem buildParts_plain_ok (parts : List (LinearRing × List LinearRing)) :
    ∀ st : GEOSState, (∀ pr ∈ parts, partOkB pr = true) →
    buildParts (parts.map plainPoly) st =
      ({ st with polys := st.polys ++ parts },
        .ok (List.range' st.polys.length parts.length)) := by
  induction parts with
  | nil => intro st _; simp [buildParts]
  | cons pr rest ih =>
    intro st h
    have hpr : partOkB pr = true := h pr (by simp)
    have hrest : ∀ q ∈ rest, partOkB q = true := fun q hq => h q (by simp [hq])
    simp only [List.map_cons, buildParts, plainPoly, resolveShell, resolveHoles,
      geos_polygon_from_py, Prod.mk.eta, hpr, if_true]
    rw [ih _ hrest]
    simp [List.range'_succ, List.append_assoc]

theorem buildPartsPy_ok (parts : List (LinearRing × List LinearRing)) :
    ∀ st : GEOSState, (∀ pr ∈ parts, partOkB pr = true) →
    buildPartsPy (parts.map geoPart) st =
      ({ st with polys := st.polys ++ parts },
        .ok (List.range' st.polys.length parts.length)) := by
  induction parts with
  | nil => intro st _; simp [buildPartsPy]
  | cons pr rest ih =>
    intro st h
    have hpr : partOkB pr = true := h pr (by simp)
    have hrest : ∀ q ∈ rest, partOkB q = true := fun q hq => h q (by simp [hq])
    simp only [List.map_cons, geoPart, buildPartsPy, geos_polygon_from_py,
      Prod.mk.eta, hpr, if_true]
    rw [ih _ hrest]
    simp [List.range'_succ, List.append_assoc]

theorem filterMap_getElem_range' (post : List (LinearRing × List LinearRing)) :
    ∀ pre : List (LinearRing × List LinearRing),
    (List.range' pre.length post.length).filterMap (fun h => (pre ++ post)[h]?) = post := by
  induction post with
  | nil => intro pre; simp
  | cons x rest ih =>
    intro pre
    rw [List.length_cons, List.range'_succ, List.filterMap_cons]
    have h1 : (pre ++ x :: rest)[pre.length]? = some x := by
      rw [List.getElem?_append_right (Nat.le_refl _)]
      simp
    rw [h1]
    have h2 : pre ++ x :: rest = (pre ++ [x]) ++ rest := by simp
    have h3 : pre.length + 1 = (pre ++ [x]).length := by simp
    rw [h2, h3, ih (pre ++ [x])]

theorem partOkB_parts (pr : LinearRing × List LinearRing) (h : partOkB pr = true) :
    ∃ c tl, pr.1 = c :: tl ∧ (c.length = 2 ∨ c.length = 3) ∧ ∀ r ∈ pr.2, r ≠ [] := by
  cases hcase : pr.1 with
  | nil => rw [partOkB, hcase] at h; simp at h
  | cons c tl =>
    refine ⟨c, tl, rfl, ?_, ?_⟩
    · rw [partOkB, hcase] at h
      simp only [Bool.and_eq_true, Bool.or_eq_true, beq_iff_eq] at h
      simpa using h.1.2
    · rw [partOkB, hcase] at h
      simp only [Bool.and_eq_true, List.all_eq_true] at h
      intro r hr
      have := h.2 r hr
      simpa using this

theorem from_polygons_plain_ok (pr0 : LinearRing × List LinearRing)
    (rest : List (LinearRing × List LinearRing)) (st : GEOSState)
    (h : ∀ pr ∈ pr0 :: rest, partOkB pr = true) :
    geos_multipolygon_from_polygons (plainSeq (pr0 :: rest)) st =
      ({ polys := st.polys ++ pr0 :: rest,
         colls := st.colls ++ [List.range' st.polys.length (pr0 :: rest).length] },
        .ok (st.colls.length, (pr0.1.headD []).length)) := by
  obtain ⟨c, tl, hc, hdim, _⟩ := partOkB_parts pr0 (h pr0 (by simp))
  rw [geos_multipolygon_from_polygons]
  have hsrc : multipolygonSource (plainSeq (pr0 :: rest)) = (pr0 :: rest).map plainPoly := rfl
  rw [hsrc, List.map_cons, assemblePolygons]
  have hinf : inferN (plainPoly pr0) = .ok c.length := by
    rw [inferN, plainPoly]
    simp [hc]
  rw [hinf]
  simp only [if_pos hdim]
  rw [show plainPoly pr0 :: rest.map plainPoly = (pr0 :: rest).map plainPoly from rfl]
  rw [buildParts_plain_ok _ _ h]
  simp [GEOSGeom_createCollection, hc]

theorem from_py_plain_ok (pr0 : LinearRing × List LinearRing)
    (rest : List (LinearRing × List LinearRing)) (st : GEOSState)
    (h : ∀ pr ∈ pr0 :: rest, partOkB pr = true) :
    geos_multipolygon_from_py ((pr0 :: rest).map geoPart) st =
      ({ polys := st.polys ++ pr0 :: rest,
         colls := st.colls ++ [List.range' st.polys.length (pr0 :: rest).length] },
        .ok (st.colls.length, (pr0.1.headD []).length)) := by
  obtain ⟨c, tl, hc, hdim, _⟩ := partOkB_parts pr0 (h pr0 (by simp))
  rw [List.map_cons, geoPart, hc]
  simp only [geos_multipolygon_from_py, if_pos hdim]
  rw [show ((c :: tl) :: pr0.2) :: rest.map geoPart = (pr0 :: rest).map geoPart by
    simp [geoPart, hc]]
  rw [buildPartsPy_ok _ _ h]
  simp [GEOSGeom_createCollection, hc]

theorem buildParts_plain_fail (good : List (LinearRing × List LinearRing)) :
    ∀ (bad : LinearRing × List LinearRing) (rest : List (LinearRing × List LinearRing))
      (st : GEOSState), (∀ pr ∈ good, partOkB pr = true) → partOkB bad = false →
    buildParts ((good ++ bad :: rest).map plainPoly) st =
      ({ st with polys := st.polys ++ good }, .error .shape) := by
  induction good with
  | nil =>
    intro bad rest st _ hbad
    simp only [List.nil_append, List.map_cons, buildParts, plainPoly,
      resolveShell, resolveHoles, geos_polygon_from_py, Prod.mk.eta, hbad]
    simp
  | cons g gs ih =>
    intro bad rest st h hbad
    have hg : partOkB g = true := h g (by simp)
    have hgs : ∀ q ∈ gs, partOkB q = true := fun q hq => h q (by simp [hq])
    simp only [List.cons_append, List.map_cons, buildParts, plainPoly,
      resolveShell, resolveHoles, geos_polygon_from_py, Prod.mk.eta, hg, if_true,
      List.append_eq]
    rw [ih bad rest _ hgs hbad]
    simp [List.append_assoc]

theorem assemblePolygons_ok_inv {obs : List PolyLike} {st st2 : GEOSState} {c N : Nat}
    (h : assemblePolygons obs st = (st2, .ok (c, N))) :
    ∃ e, obs.head? = some e ∧ inferN e = .ok N ∧ (N = 2 ∨ N = 3) := by
  cases obs with
  | nil => simp [assemblePolygons] at h
  | cons e rest =>
    refine ⟨e, rfl, ?_⟩
    rw [assemblePolygons] at h
    cases hinf : inferN e with
    | error err => simp only [hinf] at h; simp at h
    | ok M =>
      simp only [hinf] at h
      by_cases hM : M = 2 ∨ M = 3
      · rw [if_pos hM] at h
        cases hbp : buildParts (e :: rest) st with
        | mk st1 r =>
          simp only [hbp] at h
          cases r with
          | error err => simp at h
          | ok hs =>
            simp only [Prod.mk.injEq, Except.ok.injEq] at h
            obtain ⟨-, -, hMN⟩ := h
            subst hMN
            exact ⟨rfl, hM⟩
      · rw [if_neg hM] at h; simp at h

theorem from_py_ok_inv {ob : List (List LinearRing)} {st st2 : GEOSState} {c N : Nat}
    (h : geos_multipolygon_from_py ob st = (st2, .ok (c, N))) :
    ∃ p0 r0 c0, ob.head? = some p0 ∧ p0.head? = some r0 ∧ r0.head? = some c0 ∧
      c0.length = N ∧ (N = 2 ∨ N = 3) := by
  cases ob with
  | nil => simp [geos_multipolygon_from_py] at h
  | cons p0 rest =>
    cases p0 with
    | nil => simp [geos_multipolygon_from_py] at h
    | cons r0 prest =>
      cases r0 with
      | nil => simp [geos_multipolygon_from_py] at h
      | cons c0 crest =>
        refine ⟨_, _, c0, rfl, rfl, rfl, ?_⟩
        simp only [geos_multipolygon_from_py] at h
        by_cases hdim : c0.length = 2 ∨ c0.length = 3
        · rw [if_pos hdim] at h
          cases hbp : buildPartsPy (((c0 :: crest) :: prest) :: rest) st with
          | mk st1 r =>
            simp only [hbp] at h
            cases r with
            | error err => simp at h
            | ok hs =>
              simp only [Prod.mk.injEq, Except.ok.injEq] at h
              obtain ⟨-, -, hMN⟩ := h
              exact ⟨hMN, hMN ▸ hdim⟩
        · rw [if_neg hdim] at h; simp at h

theorem adapterReads_cached (w : Nat × Nat) (n : Nat) (v : Nat × Nat) (r : Nat) :
    adapterReads w n { cache := some v, resolutions := r } =
      { cache := some v, resolutions := r } := by
  induction n with
  | zero => rfl
  | succ k ih =>
    rw [adapterReads]
    simpa [adapterRead] using ih

theorem collectionParts_result (st : GEOSState)
    (parts : List (LinearRing × List LinearRing)) :
    collectionParts
      { polys := st.polys ++ parts,
        colls := st.colls ++ [List.range' st.polys.length parts.length] }
      st.colls.length = parts := by
  rw [collectionParts]
  have h1 : (st.colls ++ [List.range' st.polys.length parts.length])[st.colls.length]? =
      some (List.range' st.polys.length parts.length) := by
    rw [List.getElem?_append_right (Nat.le_refl _)]
    simp
  simp only [h1, Option.getD_some]
  exact filterMap_getElem_range' parts st.polys

/-- C1: for every non-empty sequence of valid polygon parts given at
construction, the number of parts of the built collection equals the input
length, and the interchange export has type `MultiPolygon` and, for each
part in input order, lists that part's exterior ring first followed by its
hole rings, with coordinates equal to the tuples supplied at that index. -/
theorem claim_C1 (parts : List (LinearRing × List LinearRing)) (st : GEOSState)
    (h1 : parts ≠ []) (h2 : ∀ pr ∈ parts, partOkB pr = true) :
    ∃ st2 c N,
      geos_multipolygon_from_polygons (plainSeq parts) st = (st2, .ok (c, N)) ∧
      collectionParts st2 c = parts ∧
      (collectionParts st2 c).length = parts.length ∧
      (multipolygon_geo_interface st2 c).type = "MultiPolygon" ∧
      (multipolygon_geo_interface st2 c).coordinates =
        parts.map (fun pr => pr.1 :: pr.2) := by
  cases parts with
  | nil => exact absurd rfl h1
  | cons pr0 rest =>
    refine ⟨_, st.colls.length, _, from_polygons_plain_ok pr0 rest st h2, ?_, ?_, rfl, ?_⟩
    · exact collectionParts_result st (pr0 :: rest)
    · rw [collectionParts_result st (pr0 :: rest)]
    · rw [multipolygon_geo_interface, collectionParts_result st (pr0 :: rest)]

/-- A concrete valid 2D part used by several witnesses. -/
def wShell : LinearRing := [[0,0],[0,1],[1,1],[1,0]]

/-- A concrete valid hole ring used by several witnesses. -/
def wHole : LinearRing := [[1,1],[1,2],[2,2],[2,1]]

/-- A concrete valid 3D part used by several witnesses. -/
def wShell3 : LinearRing := [[0,0,4],[0,1,4],[1,1,4]]

/-- Witness for C1 at a concrete one-part input. -/
theorem claim_C1_witness :
    ∃ st2 c N,
      geos_multipolygon_from_polygons (plainSeq [(wShell, [wHole])]) initGEOS =
        (st2, .ok (c, N)) ∧
      collectionParts st2 c = [(wShell, [wHole])] ∧
      (collectionParts st2 c).length = [(wShell, [wHole])].length ∧
      (multipolygon_geo_interface st2 c).type = "MultiPolygon" ∧
      (multipolygon_geo_interface st2 c).coordinates =
        [(wShell, [wHole])].map (fun pr => pr.1 :: pr.2) :=
  claim_C1 [(wShell, [wHole])] initGEOS (by decide) (by decide)

/-- C2: the collection's dimensionality is computed once, from the first
part only — via the length of the first part's first shell coordinate or
the first part's declared `_ndim` — must be 2 or 3 (otherwise the
construction fails with the state untouched), and no later part's
dimensionality is re-validated by the assembler: an input whose later parts
have a different (per-part valid) dimensionality still assembles, with the
first part's dimensionality.  Stated for both assembly entry points. -/
theorem claim_C2 :
    (∀ (ob : PolySeq) (st st2 : GEOSState) (c N : Nat),
       geos_multipolygon_from_polygons ob st = (st2, .ok (c, N)) →
       ∃ e, (multipolygonSource ob).head? = some e ∧ inferN e = .ok N ∧
         (N = 2 ∨ N = 3)) ∧
    (∀ (ob : List (List LinearRing)) (st st2 : GEOSState) (c N : Nat),
       geos_multipolygon_from_py ob st = (st2, .ok (c, N)) →
       ∃ p0 r0 c0, ob.head? = some p0 ∧ p0.head? = some r0 ∧ r0.head? = some c0 ∧
         c0.length = N ∧ (N = 2 ∨ N = 3)) ∧
    (∀ (p : PolyLike) (n : Nat), p.tupleRep = none → p.ndimAttr = some n →
       inferN p = .ok n) ∧
    (∀ (pr0 : LinearRing × List LinearRing)
       (rest : List (LinearRing × List LinearRing)) (st : GEOSState)
       (c0 : Coord) (tl : List Coord),
       pr0.1 = c0 :: tl → ¬(c0.length = 2 ∨ c0.length = 3) →
       geos_multipolygon_from_polygons (plainSeq (pr0 :: rest)) st =
         (st, .error .construction)) ∧
    (∀ (pr0 : LinearRing × List LinearRing)
       (rest : List (LinearRing × List LinearRing)) (st : GEOSState),
       (∀ pr ∈ pr0 :: rest, partOkB pr = true) →
       ∃ st2 c, geos_multipolygon_from_polygons (plainSeq (pr0 :: rest)) st =
         (st2, .ok (c, (pr0.1.headD []).length))) := by
  refine ⟨?_, ?_, ?_, ?_, ?_⟩
  · intro ob st st2 c N h
    exact assemblePolygons_ok_inv h
  · intro ob st st2 c N h
    exact from_py_ok_inv h
  · intro p n h1 h2
    rw [inferN, h1, h2]
  · intro pr0 rest st c0 tl hc hdim
    rw [geos_multipolygon_from_polygons]
    have hsrc : multipolygonSource (plainSeq (pr0 :: rest)) =
        plainPoly pr0 :: rest.map plainPoly := rfl
    rw [hsrc, assemblePolygons]
    have hinf : inferN (plainPoly pr0) = .ok c0.length := by
      rw [inferN, plainPoly]
      simp [hc]
    rw [hinf]
    simp only [if_neg hdim]
  · intro pr0 rest st h
    exact ⟨_, _, from_polygons_plain_ok pr0 rest st h⟩

/-- Witness for C2: a mixed-dimensionality input (first part 2D, second
part 3D) assembles with dimensionality 2, taken from the first part. -/
theorem claim_C2_witness :
    ∃ st2 c, geos_multipolygon_from_polygons
        (plainSeq [(wShell, [wHole]), (wShell3, [])]) initGEOS =
      (st2, .ok (c, (wShell.headD []).length)) :=
  claim_C2.2.2.2.2 (wShell, [wHole]) [(wShell3, [])] initGEOS (by decide)

/-- Counterexample to C3 as stated: the no-input construction path is not
the only way to obtain an empty collection.  Constructing with a non-empty
parts sequence but an unrecognized context type also yields an object with
no geometry handle (an empty collection) and raises nothing. -/
theorem claim_C3_counterexample :
    contextFalsy (MPContext.polyCtx (plainSeq [(wShell, [wHole])])) = false ∧
    multiPolygonInit (some (MPContext.polyCtx (plainSeq [(wShell, [wHole])])))
      "tuples" initGEOS = (initGEOS, .ok none) := by
  exact ⟨rfl, rfl⟩

/-- C3 as amended: assembling an empty parts sequence through either
assembly entry point raises the construction error and leaves the engine
state untouched (no handle is created), and the no-input construction path
(absent or falsy `polygons`) yields the empty collection without calling an
assembler; however empty collections are also reachable through a non-empty
input with an unrecognized context type (see the counterexample), so the
no-input path is not the only source of empty collections. -/
theorem claim_C3 :
    (∀ st : GEOSState, geos_multipolygon_from_py [] st =
      (st, .error .construction)) ∧
    (∀ (ob : PolySeq) (st : GEOSState), multipolygonSource ob = [] →
       geos_multipolygon_from_polygons ob st = (st, .error .construction)) ∧
    (∀ (t : String) (st : GEOSState), multiPolygonInit none t st = (st, .ok none)) ∧
    (∀ (c : MPContext) (t : String) (st : GEOSState), contextFalsy c = true →
       multiPolygonInit (some c) t st = (st, .ok none)) := by
  refine ⟨fun st => rfl, ?_, fun t st => rfl, ?_⟩
  · intro ob st h
    rw [geos_multipolygon_from_polygons, h, assemblePolygons]
  · intro c t st h
    simp [multiPolygonInit, h]

/-- Witness for C3 at concrete inputs: both assemblers reject an empty
sequence (also when an empty `geoms` attribute is present), with the
engine state unchanged. -/
theorem claim_C3_witness :
    multipolygonSource { geoms := some [], seq := [] } = [] ∧
    geos_multipolygon_from_polygons { geoms := some [], seq := [] } initGEOS =
      (initGEOS, .error .construction) ∧
    contextFalsy (MPContext.geoCtx []) = true ∧
    multiPolygonInit (some (MPContext.geoCtx [])) "geojson" initGEOS =
      (initGEOS, .ok none) :=
  ⟨rfl, claim_C3.2.1 { geoms := some [], seq := [] } initGEOS rfl, rfl,
    claim_C3.2.2.2 (MPContext.geoCtx []) "geojson" initGEOS rfl⟩

/-- Counterexample to C4 as stated: a two-part assembly whose second part
fails in the ring builder propagates the error and creates no collection
handle, but the engine handle already built for part 0 is NOT released —
the final engine state still holds its payload, where the claim requires
the state to hold none. -/
theorem claim_C4_counterexample :
    (geos_multipolygon_from_polygons (plainSeq [(wShell, [wHole]), ([], [])])
        initGEOS).2 = .error .shape ∧
    (geos_multipolygon_from_polygons (plainSeq [(wShell, [wHole]), ([], [])])
        initGEOS).1.colls = [] ∧
    (geos_multipolygon_from_polygons (plainSeq [(wShell, [wHole]), ([], [])])
        initGEOS).1.polys ≠ [] := by
  refine ⟨rfl, rfl, by decide⟩

theorem buildPartsPy_fail (good : List (LinearRing × List LinearRing)) :
    ∀ (bad : LinearRing × List LinearRing)
      (rest : List (LinearRing × List LinearRing)) (st : GEOSState),
      (∀ pr ∈ good, partOkB pr = true) → partOkB bad = false →
    buildPartsPy ((good ++ bad :: rest).map geoPart) st =
      ({ st with polys := st.polys ++ good }, .error .shape) := by
  induction good with
  | nil =>
    intro bad rest st _ hbad
    simp only [List.nil_append, List.map_cons, geoPart, buildPartsPy,
      geos_polygon_from_py, Prod.mk.eta, hbad]
    simp
  | cons g gs ih =>
    intro bad rest st h hbad
    have hg : partOkB g = true := h g (by simp)
    have hgs : ∀ q ∈ gs, partOkB q = true := fun q hq => h q (by simp [hq])
    simp only [List.cons_append, List.map_cons, geoPart, buildPartsPy,
      geos_polygon_from_py, Prod.mk.eta, hg, if_true, List.append_eq]
    rw [ih bad rest _ hgs hbad]
    simp [List.append_assoc]

theorem buildParts_resolve_fail (good : List (LinearRing × List LinearRing)) :
    ∀ (badp : PolyLike) (rest : List PolyLike) (st : GEOSState),
      (∀ pr ∈ good, partOkB pr = true) →
      badp.exterior = none → badp.tupleRep = none →
    buildParts (good.map plainPoly ++ badp :: rest) st =
      ({ st with polys := st.polys ++ good }, .error .typeErr) := by
  induction good with
  | nil =>
    intro badp rest st _ he ht
    simp only [List.map_nil, List.nil_append, buildParts, resolveShell, he, ht]
    simp
  | cons g gs ih =>
    intro badp rest st h he ht
    have hg : partOkB g = true := h g (by simp)
    have hgs : ∀ q ∈ gs, partOkB q = true := fun q hq => h q (by simp [hq])
    simp only [List.map_cons, List.cons_append, buildParts, plainPoly,
      resolveShell, resolveHoles, geos_polygon_from_py, Prod.mk.eta, hg,
      if_true, List.append_eq]
    rw [ih badp rest _ hgs he ht]
    simp [List.append_assoc]

/-- C4 as amended: for every assembly that fails while building part k
(k ≥ 1) — through either entry point's per-part loop, whether the part
fails in the ring builder (both modes) or already at shell/hole resolution
(a `TypeError` in plain-tuple mode) — the error propagates and no
collection handle is created, but the already-built engine handles for
parts 0..k-1 are NOT released: their payloads remain in the engine state
(a resource leak — neither loop has any cleanup on its failure path). -/
theorem claim_C4 :
    (∀ (good : List (LinearRing × List LinearRing))
       (bad : LinearRing × List LinearRing)
       (rest : List (LinearRing × List LinearRing)) (st : GEOSState),
       good ≠ [] → (∀ pr ∈ good, partOkB pr = true) → partOkB bad = false →
       geos_multipolygon_from_polygons (plainSeq (good ++ bad :: rest)) st =
         ({ st with polys := st.polys ++ good }, .error .shape)) ∧
    (∀ (good : List (LinearRing × List LinearRing))
       (bad : LinearRing × List LinearRing)
       (rest : List (LinearRing × List LinearRing)) (st : GEOSState),
       good ≠ [] → (∀ pr ∈ good, partOkB pr = true) → partOkB bad = false →
       geos_multipolygon_from_py ((good ++ bad :: rest).map geoPart) st =
         ({ st with polys := st.polys ++ good }, .error .shape)) ∧
    (∀ (good : List (LinearRing × List LinearRing)) (badp : PolyLike)
       (rest : List PolyLike) (st : GEOSState),
       good ≠ [] → (∀ pr ∈ good, partOkB pr = true) →
       badp.exterior = none → badp.tupleRep = none →
       geos_multipolygon_from_polygons
           { geoms := none, seq := good.map plainPoly ++ badp :: rest } st =
         ({ st with polys := st.polys ++ good }, .error .typeErr)) ∧
    (∀ (st : GEOSState) (good : List (LinearRing × List LinearRing)),
       ({ st with polys := st.polys ++ good } : GEOSState).colls = st.colls ∧
       ({ st with polys := st.polys ++ good } : GEOSState).polys.length =
         st.polys.length + good.length) := by
  refine ⟨?_, ?_, ?_, fun st good => ⟨rfl, by simp⟩⟩
  · intro good bad rest st hg h1 h2
    cases good with
    | nil => exact absurd rfl hg
    | cons g gs =>
      obtain ⟨c, tl, hc, hdim, _⟩ := partOkB_parts g (h1 g (by simp))
      rw [geos_multipolygon_from_polygons]
      have hsrc : multipolygonSource (plainSeq ((g :: gs) ++ bad :: rest)) =
          plainPoly g :: (gs ++ bad :: rest).map plainPoly := by
        simp [plainSeq, multipolygonSource]
      rw [hsrc, assemblePolygons]
      have hinf : inferN (plainPoly g) = .ok c.length := by
        rw [inferN, plainPoly]
        simp [hc]
      rw [hinf]
      simp only [if_pos hdim]
      rw [show plainPoly g :: (gs ++ bad :: rest).map plainPoly =
          ((g :: gs) ++ bad :: rest).map plainPoly by simp]
      rw [buildParts_plain_fail (g :: gs) bad rest st h1 h2]
  · intro good bad rest st hg h1 h2
    cases good with
    | nil => exact absurd rfl hg
    | cons g gs =>
      obtain ⟨c, tl, hc, hdim, _⟩ := partOkB_parts g (h1 g (by simp))
      rw [List.cons_append, List.map_cons, geoPart, hc]
      simp only [geos_multipolygon_from_py, if_pos hdim]
      rw [show ((c :: tl) :: g.2) :: (gs ++ bad :: rest).map geoPart =
          ((g :: gs) ++ bad :: rest).map geoPart by simp [geoPart, hc]]
      rw [buildPartsPy_fail (g :: gs) bad rest st h1 h2]
  · intro good badp rest st hg h1 he ht
    cases good with
    | nil => exact absurd rfl hg
    | cons g gs =>
      obtain ⟨c, tl, hc, hdim, _⟩ := partOkB_parts g (h1 g (by simp))
      rw [geos_multipolygon_from_polygons]
      have hsrc : multipolygonSource
          { geoms := none, seq := (g :: gs).map plainPoly ++ badp :: rest } =
          plainPoly g :: (gs.map plainPoly ++ badp :: rest) := by
        simp [multipolygonSource]
      rw [hsrc, assemblePolygons]
      have hinf : inferN (plainPoly g) = .ok c.length := by
        rw [inferN, plainPoly]
        simp [hc]
      rw [hinf]
      simp only [if_pos hdim]
      rw [show plainPoly g :: (gs.map plainPoly ++ badp :: rest) =
          (g :: gs).map plainPoly ++ badp :: rest by simp]
      rw [buildParts_resolve_fail (g :: gs) badp rest st h1 he ht]

/-- A polygon-like input with no attributes and no index representation:
resolving its shell raises a `TypeError`. -/
def bareP : PolyLike :=
  { exterior := none, interiors := none, tupleRep := none, ndimAttr := none }

/-- Witness for C4 at concrete inputs: in each entry point, and for a
resolve-stage failure, part 1 of two fails, part 0's handle stays live,
and no collection exists. -/
theorem claim_C4_witness :
    geos_multipolygon_from_polygons (plainSeq [(wShell, [wHole]), ([], [])])
        initGEOS =
      ({ initGEOS with polys := initGEOS.polys ++ [(wShell, [wHole])] },
        .error .shape) ∧
    geos_multipolygon_from_py ([(wShell, [wHole]), ([], [])].map geoPart)
        initGEOS =
      ({ initGEOS with polys := initGEOS.polys ++ [(wShell, [wHole])] },
        .error .shape) ∧
    geos_multipolygon_from_polygons
        { geoms := none, seq := [(wShell, [wHole])].map plainPoly ++ bareP :: [] }
        initGEOS =
      ({ initGEOS with polys := initGEOS.polys ++ [(wShell, [wHole])] },
        .error .typeErr) ∧
    ({ initGEOS with polys := initGEOS.polys ++ [(wShell, [wHole])] }
        : GEOSState).colls = initGEOS.colls ∧
    ({ initGEOS with polys := initGEOS.polys ++ [(wShell, [wHole])] }
        : GEOSState).polys.length = initGEOS.polys.length + 1 :=
  ⟨claim_C4.1 [(wShell, [wHole])] ([], []) [] initGEOS (by decide) (by decide)
      (by decide),
    claim_C4.2.1 [(wShell, [wHole])] ([], []) [] initGEOS (by decide) (by decide)
      (by decide),
    claim_C4.2.2.1 [(wShell, [wHole])] bareP [] initGEOS (by decide) (by decide)
      rfl rfl,
    (claim_C4.2.2.2 initGEOS [(wShell, [wHole])]).1,
    (claim_C4.2.2.2 initGEOS [(wShell, [wHole])]).2⟩

/-- A polygon-like input that exposes an `exterior` attribute but no
`interiors` attribute, and is also indexable with a different shell at
index 0 and a non-empty hole group at index 1. -/
def c5poly : PolyLike :=
  { exterior := some wShell, interiors := none,
    tupleRep := some (wShell3, [wHole]), ndimAttr := none }

/-- Counterexample to C5 as stated: for a part exposing `exterior` but not
`interiors`, the claim requires the holes to be empty (first matching path
wins as a whole); the code instead resolves holes independently and takes
them from `p[1]`, so the built polygon's holes are non-empty. -/
theorem claim_C5_counterexample :
    c5poly.exterior = some wShell ∧ c5poly.interiors = none ∧
    (geos_multipolygon_from_polygons { geoms := none, seq := [c5poly] }
        initGEOS).1.polys = [(wShell, [wHole])] ∧
    ([wHole] : List LinearRing) ≠ [] := by
  refine ⟨rfl, rfl, rfl, by decide⟩

/-- C5 as amended: shell and holes are resolved independently, each with
its own attribute-then-index fallback.  In plain-tuple mode the shell is
`p.exterior` if present else `p[0]`, and the holes are `p.interiors` if
present else `p[1]` (not the empty sequence); when neither an attribute nor
an index is available the resolution fails with a `TypeError`.  In
geo-interface mode no attribute is consulted: `p[0]` is the shell and
`p[1:]` are the holes. -/
theorem claim_C5 :
    (∀ (p : PolyLike) (t : LinearRing × List LinearRing) (st : GEOSState),
       p.tupleRep = some t →
       partOkB (p.exterior.getD t.1, p.interiors.getD t.2) = true →
       buildParts [p] st =
         ({ st with polys :=
              st.polys ++ [(p.exterior.getD t.1, p.interiors.getD t.2)] },
           .ok [st.polys.length])) ∧
    (∀ p : PolyLike, p.exterior = none → p.tupleRep = none →
       resolveShell p = .error .typeErr) ∧
    (∀ p : PolyLike, p.interiors = none → p.tupleRep = none →
       resolveHoles p = .error .typeErr) ∧
    (∀ (s : LinearRing) (hs : List LinearRing) (st : GEOSState),
       partOkB (s, hs) = true →
       buildPartsPy [s :: hs] st =
         ({ st with polys := st.polys ++ [(s, hs)] }, .ok [st.polys.length])) := by
  refine ⟨?_, ?_, ?_, ?_⟩
  · intro p t st htup hok
    cases hext : p.exterior with
    | some s =>
      cases hint : p.interiors with
      | some hl =>
        rw [hext, hint] at hok
        simp only [Option.getD_some] at hok ⊢
        simp [buildParts, resolveShell, resolveHoles, hext, hint,
          geos_polygon_from_py, hok]
      | none =>
        rw [hext, hint] at hok
        simp only [Option.getD_some, Option.getD_none] at hok ⊢
        simp [buildParts, resolveShell, resolveHoles, hext, hint, htup,
          geos_polygon_from_py, hok]
    | none =>
      cases hint : p.interiors with
      | some hl =>
        rw [hext, hint] at hok
        simp only [Option.getD_some, Option.getD_none] at hok ⊢
        simp [buildParts, resolveShell, resolveHoles, hext, hint, htup,
          geos_polygon_from_py, hok]
      | none =>
        rw [hext, hint] at hok
        simp only [Option.getD_none] at hok ⊢
        simp [buildParts, resolveShell, resolveHoles, hext, hint, htup,
          geos_polygon_from_py, hok]
  · intro p h1 h2
    rw [resolveShell, h1, h2]
  · intro p h1 h2
    rw [resolveHoles, h1, h2]
  · intro s hs st hok
    simp [buildPartsPy, geos_polygon_from_py, hok]

/-- Witness for C5: the amended resolution applied to `c5poly` builds the
polygon from the `exterior` attribute and the indexed hole group. -/
theorem claim_C5_witness :
    c5poly.tupleRep = some (wShell3, [wHole]) ∧
    partOkB (c5poly.exterior.getD wShell3, c5poly.interiors.getD [wHole]) = true ∧
    buildParts [c5poly] initGEOS =
      ({ initGEOS with polys := initGEOS.polys ++
          [(c5poly.exterior.getD wShell3, c5poly.interiors.getD [wHole])] },
        .ok [initGEOS.polys.length]) :=
  ⟨rfl, by decide,
    claim_C5.1 c5poly (wShell3, [wHole]) initGEOS rfl (by decide)⟩

/-- C6: the adapter's dimensionality probe tries the array-interface shape
descriptor of `context[0][0]` first, asserting its second axis is 2 or 3;
the structural fallback measuring `len(context[0][0][0])` runs only when
the array protocol is absent; every other failure — a shape descriptor
without a second axis, or a second axis outside 2..3 (even when the
fallback could have succeeded) — surfaces as the probe error. -/
theorem claim_C6 :
    (∀ (ctx : NdimCtx) (shape : List Nat) (n : Nat),
       ctx.arrayShape = some shape → shape[1]? = some n → (n = 2 ∨ n = 3) →
       adapter_ndim ctx = .ok n) ∧
    (∀ (ctx : NdimCtx) (shape : List Nat) (n : Nat),
       ctx.arrayShape = some shape → shape[1]? = some n → ¬(n = 2 ∨ n = 3) →
       adapter_ndim ctx = .error .probe) ∧
    (∀ (ctx : NdimCtx) (shape : List Nat),
       ctx.arrayShape = some shape → shape[1]? = none →
       adapter_ndim ctx = .error .probe) ∧
    (∀ (ctx : NdimCtx) (k : Nat), ctx.arrayShape = none → ctx.nested0 = some k →
       adapter_ndim ctx = .ok k) ∧
    (∀ ctx : NdimCtx, ctx.arrayShape = none → ctx.nested0 = none →
       adapter_ndim ctx = .error .probe) := by
  refine ⟨?_, ?_, ?_, ?_, ?_⟩
  · intro ctx shape n h1 h2 h3
    simp [adapter_ndim, h1, h2, h3]
  · intro ctx shape n h1 h2 h3
    simp [adapter_ndim, h1, h2, h3]
  · intro ctx shape h1 h2
    simp [adapter_ndim, h1, h2]
  · intro ctx k h1 h2
    simp [adapter_ndim, h1, h2]
  · intro ctx h1 h2
    simp [adapter_ndim, h1, h2]

/-- Witness for C6: a declared shape with second axis 7 is rejected with
the probe error even though the structural fallback would have returned 2 —
the fallback runs only on a missing array protocol. -/
theorem claim_C6_witness :
    ({ arrayShape := some [5, 7], nested0 := some 2 } : NdimCtx).nested0 = some 2 ∧
    adapter_ndim { arrayShape := some [5, 7], nested0 := some 2 } =
      .error .probe :=
  ⟨rfl, claim_C6.2.1 { arrayShape := some [5, 7], nested0 := some 2 } [5, 7] 7
    rfl rfl (by decide)⟩

/-- C7: for every lazy caching adapter, the first read operation triggers
exactly one resolution, the resulting (handle, dimensionality) pair is
cached for the remainder of the adapter's lifetime, subsequent reads
trigger zero further resolutions, and no automatic re-resolution ever
occurs — even when a mutated context would now resolve to a different
value, the cached pair and the resolution count are unchanged. -/
theorem claim_C7 :
    (∀ v : Nat × Nat, adapterRead v adapterInitState =
       (v, { cache := some v, resolutions := 1 })) ∧
    (∀ (v : Nat × Nat) (n : Nat),
       adapterReads v (n + 1) adapterInitState =
         { cache := some v, resolutions := 1 }) ∧
    (∀ (w v : Nat × Nat) (n r : Nat),
       adapterReads w n { cache := some v, resolutions := r } =
         { cache := some v, resolutions := r }) ∧
    (∀ (w v : Nat × Nat) (r : Nat),
       (adapterRead w { cache := some v, resolutions := r }).1 = v) := by
  refine ⟨fun v => rfl, ?_, ?_, fun w v r => rfl⟩
  · intro v n
    rw [adapterReads]
    exact adapterReads_cached v n v 1
  · intro w v n r
    exact adapterReads_cached w n v r

theorem digitChar_isDigit : ∀ d : Nat, d < 10 → (Nat.digitChar d).isDigit = true := by
  decide

/-- The 2D open line of `test_linestring_wkt_2d`. -/
def wktLine2d : List (List WktNum) :=
  [[wknum 1, wknum 2], [wknum 3, wknum 4], [wknum 5, wknum 6]]

/-- The 2D closed ring of `test_linearring_wkt_2d`. -/
def wktRing2d : List (List WktNum) :=
  [[wknum 0, wknum 0], [wknum 2, wknum 3], [wknum 3, wknum 2], [wknum 0, wknum 0]]

/-- The 3D open line of `test_linestring_wkt_3d`. -/
def wktLine3d : List (List WktNum) :=
  [[wknum 1, wknum 2, wknum 10], [wknum 3, wknum 4, wknum 11],
   [wknum 5, wknum 6, wknum 12]]

/-- The 3D closed ring of `test_linearring_wkt_3d`. -/
def wktRing3d : List (List WktNum) :=
  [[wknum 0, wknum 0, wknum 10], [wknum 2, wknum 3, wknum 11],
   [wknum 3, wknum 2, wknum 12], [wknum 0, wknum 0, wknum 10]]

set_option maxRecDepth 8000 in
/-- C8: WKT formatting renders every numeric coordinate with exactly 16
digits after the decimal point; a coordinate sequence is emitted as
`LINEARRING (...)` instead of `LINESTRING (...)` exactly when it has 4 or
more points and its first and last coordinates are identical; a 3D
coordinate adds a third formatted value per point with no marker token.
The four concrete equalities reproduce, character for character, the
expected strings pinned by `tests/test_linestring.py`. -/
theorem claim_C8 :
    (∀ f : Nat, (frac16 f).length = 16 ∧ ∀ ch ∈ frac16 f, ch.isDigit = true) ∧
    (∀ coords : List (List WktNum),
       wktTag coords = "LINEARRING" ↔
         (4 ≤ coords.length ∧ coords.head? = coords.getLast?)) ∧
    (∀ coords : List (List WktNum),
       wktTag coords = "LINEARRING" ∨ wktTag coords = "LINESTRING") ∧
    (∀ a b c : WktNum, formatPoint [a, b, c] =
       formatNum a ++ " " ++ (formatNum b ++ " " ++ formatNum c)) ∧
    wktDumps wktLine2d =
      "LINESTRING (1.0000000000000000 2.0000000000000000, " ++
      "3.0000000000000000 4.0000000000000000, " ++
      "5.0000000000000000 6.0000000000000000)" ∧
    wktDumps wktRing2d =
      "LINEARRING (0.0000000000000000 0.0000000000000000, " ++
      "2.0000000000000000 3.0000000000000000, " ++
      "3.0000000000000000 2.0000000000000000, " ++
      "0.0000000000000000 0.0000000000000000)" ∧
    wktDumps wktLine3d =
      "LINESTRING (" ++
      "1.0000000000000000 2.0000000000000000 10.0000000000000000, " ++
      "3.0000000000000000 4.0000000000000000 11.0000000000000000, " ++
      "5.0000000000000000 6.0000000000000000 12.0000000000000000)" ∧
    wktDumps wktRing3d =
      "LINEARRING (" ++
      "0.0000000000000000 0.0000000000000000 10.0000000000000000, " ++
      "2.0000000000000000 3.0000000000000000 11.0000000000000000, " ++
      "3.0000000000000000 2.0000000000000000 12.0000000000000000, " ++
      "0.0000000000000000 0.0000000000000000 10.0000000000000000)" := by
  refine ⟨?_, ?_, ?_, ?_, rfl, rfl, rfl, rfl⟩
  · intro f
    constructor
    · simp [frac16]
    · intro ch hch
      rw [frac16] at hch
      simp only [List.mem_map, List.mem_range] at hch
      obtain ⟨i, -, hi⟩ := hch
      rw [← hi]
      exact digitChar_isDigit _ (Nat.mod_lt _ (by norm_num))
  · intro coords
    rw [wktTag]
    by_cases h : 4 ≤ coords.length ∧ coords.head? = coords.getLast?
    · rw [if_pos h]
      simp [h]
    · rw [if_neg h]
      constructor
      · intro habs
        exact absurd habs (by decide)
      · intro habs
        exact absurd habs h
  · intro coords
    rw [wktTag]
    by_cases h : 4 ≤ coords.length ∧ coords.head? = coords.getLast?
    · rw [if_pos h]
      exact Or.inl rfl
    · rw [if_neg h]
      exact Or.inr rfl
  · intro a b c
    rfl

/-- Witness for C8: the 16-digit property evaluated at a concrete
fractional part. -/
theorem claim_C8_witness : (frac16 625).length = 16 :=
  (claim_C8.1 625).1

/-- C9: constructing a MultiPolygon with a non-empty parts sequence but a
context type other than `polygons` or `geojson` raises no error and sets
no geometry handle — the initializer takes no branch and the object behaves
as empty with the engine state untouched; likewise the adapter initializer
leaves its construction factory unset for such a context type. -/
theorem claim_C9 :
    (∀ (c : MPContext) (t : String) (st : GEOSState),
       contextFalsy c = false → t ≠ "polygons" → t ≠ "geojson" →
       multiPolygonInit (some c) t st = (st, .ok none)) ∧
    (∀ t : String, t ≠ "polygons" → t ≠ "geojson" →
       multiPolygonAdapterInit t = none) := by
  constructor
  · intro c t st h1 h2 h3
    rw [multiPolygonInit.eq_def]
    simp [h1, h2, h3]
  · intro t h1 h2
    rw [multiPolygonAdapterInit]
    simp [h1, h2]

/-- Witness for C9 at a concrete unrecognized context type. -/
theorem claim_C9_witness :
    contextFalsy (MPContext.geoCtx [[wShell]]) = false ∧
    multiPolygonInit (some (MPContext.geoCtx [[wShell]])) "rings" initGEOS =
      (initGEOS, .ok none) ∧
    multiPolygonAdapterInit "rings" = none :=
  ⟨rfl,
    claim_C9.1 (MPContext.geoCtx [[wShell]]) "rings" initGEOS rfl
      (by decide) (by decide),
    claim_C9.2 "rings" (by decide) (by decide)⟩

/-- C10: in `polygons` mode, a truthy `geoms` attribute supplies the parts
to assemble — the assembly result is identical to assembling the `geoms`
sequence itself, whatever the wrapping object's own elements are (so an
existing multi-part geometry can be passed directly and is rebuilt from its
parts) — while a falsy (empty) or absent `geoms` attribute falls back to
iterating the object itself. -/
theorem claim_C10 :
    (∀ (g sq : List PolyLike) (st : GEOSState), g ≠ [] →
       geos_multipolygon_from_polygons { geoms := some g, seq := sq } st =
         geos_multipolygon_from_polygons { geoms := none, seq := g } st) ∧
    (∀ (sq : List PolyLike) (st : GEOSState),
       geos_multipolygon_from_polygons { geoms := some [], seq := sq } st =
         geos_multipolygon_from_polygons { geoms := none, seq := sq } st) := by
  constructor
  · intro g sq st hg
    rw [geos_multipolygon_from_polygons, geos_multipolygon_from_polygons]
    have h1 : multipolygonSource { geoms := some g, seq := sq } = g := by
      rw [multipolygonSource]
      cases g with
      | nil => exact absurd rfl hg
      | cons x xs => rfl
    have h2 : multipolygonSource { geoms := none, seq := g } = g := rfl
    rw [h1, h2]
  · intro sq st
    rfl

/-- Witness for C10: a wrapper whose `geoms` attribute holds one valid
part while its own sequence is empty assembles exactly as the `geoms`
sequence does. -/
theorem claim_C10_witness :
    ([plainPoly (wShell, [wHole])] : List PolyLike) ≠ [] ∧
    geos_multipolygon_from_polygons
        { geoms := some [plainPoly (wShell, [wHole])], seq := [] } initGEOS =
      geos_multipolygon_from_polygons
        { geoms := none, seq := [plainPoly (wShell, [wHole])] } initGEOS :=
  ⟨by decide, claim_C10.1 [plainPoly (wShell, [wHole])] [] initGEOS (by decide)⟩
